import Mathlib

/-!
Shallow embedding of the gemini-web chat client (src/config.js and
src/gemini-web/script.js).

The client keeps a bounded conversation history, a selected "personality",
and an API-key flag; it assembles Gemini request payloads, interprets fetch
responses, and persists/restores `{conversationHistory, currentPersonality}`
snapshots through localStorage JSON.

Dynamically-typed values that flow through `JSON.parse`, property access and
truthiness tests (the load/save path) are embedded as the inductive `Js`
below.  The well-typed runtime values manipulated by `sendMessage` /
`callGeminiAPI` (turn records pushed by the code itself) are embedded as the
structures `Part` / `Turn`.  DOM rendering is abstracted to the list of
`addMessage(type, text)` calls an operation performs; all other DOM and
notification side effects carry no state relevant to the verified
properties and are dropped.
-/

set_option autoImplicit false

namespace GeminiWeb

/-- A JavaScript value, as produced by literals and `JSON.parse`:
`undefined`, `null`, booleans, numbers (integral values suffice here),
strings, arrays and plain objects (association lists of fields). -/
inductive Js where
  | undefined
  | null
  | bool (b : Bool)
  | num (n : Int)
  | str (s : String)
  | arr (elems : List Js)
  | obj (fields : List (String × Js))

/-- JavaScript truthiness: `undefined`, `null`, `false`, `0` and `""` are
falsy; every other value (including every array and object) is truthy. -/
def truthy : Js → Bool
  | .undefined => false
  | .null => false
  | .bool b => b
  | .num n => n != 0
  | .str s => s != ""
  | .arr _ => true
  | .obj _ => true

/-- Whether a value is `undefined` or `null` (property access on such a
value throws a TypeError). -/
def isNullOrUndefined : Js → Bool
  | .undefined => true
  | .null => true
  | _ => false

/-- First binding of a key in an object's field list (later duplicates are
shadowed, as in a JavaScript object literal read back by `JSON.parse`). -/
def lookupField : List (String × Js) → String → Option Js
  | [], _ => none
  | (k, v) :: fs, key => if k = key then some v else lookupField fs key

/-- `l[i]` for a JavaScript array: the element, or `undefined` out of range. -/
def listGetD : List Js → Nat → Js
  | [], _ => .undefined
  | x :: _, 0 => x
  | _ :: xs, n + 1 => listGetD xs n

/-- `s[i]` for a JavaScript string: the one-character string, or `undefined`
out of range. -/
def strCharAt (s : String) (i : Nat) : Js :=
  match s.toList.drop i with
  | [] => .undefined
  | c :: _ => .str (String.mk [c])

/-- Property access `v[k]`: `none` models a thrown TypeError (access on
`undefined`/`null`); otherwise the property value, `undefined` when absent.
Arrays and strings expose `length`; primitives are boxed, yielding
`undefined` for unknown properties. -/
def jsGet (v : Js) (k : String) : Option Js :=
  match v with
  | .undefined => none
  | .null => none
  | .obj fs => some ((lookupField fs k).getD .undefined)
  | .arr xs => some (if k = "length" then .num xs.length else .undefined)
  | .str s => some (if k = "length" then .num s.length else .undefined)
  | .bool _ => some .undefined
  | .num _ => some .undefined

/-- Index access `v[i]` with a numeric index: `none` models a thrown
TypeError (access on `undefined`/`null`). -/
def jsIdx (v : Js) (i : Nat) : Option Js :=
  match v with
  | .undefined => none
  | .null => none
  | .arr xs => some (listGetD xs i)
  | .str s => some (strCharAt s i)
  | .obj fs => some ((lookupField fs (toString i)).getD .undefined)
  | .bool _ => some .undefined
  | .num _ => some .undefined

/-- Total variant of `jsGet`, collapsing the TypeError case to `undefined`;
used only to state properties about access chains that are known not to
throw. -/
def rawGet (v : Js) (k : String) : Js :=
  (jsGet v k).getD .undefined

/-- Total variant of `jsIdx`. -/
def rawIdx (v : Js) (i : Nat) : Js :=
  (jsIdx v i).getD .undefined

/-- The comparison `a < v` between a number and a JavaScript value, as used
by the restore loop's `i < conversationHistory.length` and the guard
`conversationHistory.length > 0`: numbers compare numerically, numeric
strings are coerced, and comparisons against any other value (in particular
`undefined`) are false. -/
def jsNumLt (a : Int) (v : Js) : Bool :=
  match v with
  | .num n => a < n
  | .str s =>
    match s.toInt? with
    | some n => a < n
    | none => false
  | _ => false

/-- One element of a turn's `parts` array: `{ text: ... }`.  The text is a
`Js` value because the code can store a non-string here (the extracted
reply of a malformed success response is `undefined`). -/
structure Part where
  text : Js

/-- One conversation turn as pushed by script.js:
`{ role: ..., parts: [{ text: ... }] }`. -/
structure Turn where
  role : String
  parts : List Part

/-- Generation parameters from `CONFIG.MODEL_CONFIG` (config.js).  The
fractional constants are represented exactly as rationals. -/
structure GenerationConfig where
  temperature : ℚ
  maxOutputTokens : Nat
  topP : ℚ
  topK : Nat

/-- The static application configuration `CONFIG` (config.js).
`PERSONALITIES` is the key-to-preamble object, kept as an association
list in declaration order. -/
structure Config where
  GEMINI_API_URL : String
  MODEL_CONFIG : GenerationConfig
  PERSONALITIES : List (String × String)
  MAX_HISTORY_LENGTH : Nat
  MAX_MESSAGE_LENGTH : Nat

def CONFIG : Config :=
  { GEMINI_API_URL :=
      "https://generativelanguage.googleapis.com/v1beta/models/gemini-2.5-flash:generateContent"
    MODEL_CONFIG :=
      { temperature := 0.7, maxOutputTokens := 2048, topP := 0.8, topK := 40 }
    PERSONALITIES :=
      [ ("default", "Ты — профессиональный ассистент. Отвечай на русском языке точно, по делу, структурированно. Будь вежливым и помогающим. Используй формальный стиль общения."),
        ("poet", "Ты — поэт. Отвечай на русском языке в стихотворной форме. Используй красивые метафоры, рифмы и художественные образы. Будь творческим и вдохновляющим."),
        ("teacher", "Ты — учитель. Отвечай на русском языке просто и понятно, объясняй сложные вещи пошагово. Будь терпеливым, поддерживающим и методичным."),
        ("friend", "Ты — близкий друг. Отвечай на русском языке неформально, дружелюбно, с юмором. Используй простую речь, поддерживай и проявляй заботу."),
        ("professional", "Ты — бизнес-консультант. Отвечай на русском языке официально, делово, компетентно. Давай точную информацию, практические советы и экспертные оценки.") ]
    MAX_HISTORY_LENGTH := 20
    MAX_MESSAGE_LENGTH := 4096 }

/-- The known persona identifiers: the keys of `CONFIG.PERSONALITIES`. -/
def knownPersonalityIds : List String :=
  CONFIG.PERSONALITIES.map Prod.fst

/-- `CONFIG.PERSONALITIES[currentPersonality]` — the persona preamble, or
`undefined` for an id that is not a key of the object. -/
def systemPrompt (personality : String) : Js :=
  match CONFIG.PERSONALITIES.lookup personality with
  | some s => .str s
  | none => .undefined

/-- One entry of the fixed `safetySettings` array. -/
structure SafetySetting where
  category : String
  threshold : String

/-- The fixed safety-threshold list from `callGeminiAPI` (script.js). -/
def SAFETY_SETTINGS : List SafetySetting :=
  [ ⟨"HARM_CATEGORY_HARASSMENT", "BLOCK_MEDIUM_AND_ABOVE"⟩,
    ⟨"HARM_CATEGORY_HATE_SPEECH", "BLOCK_MEDIUM_AND_ABOVE"⟩,
    ⟨"HARM_CATEGORY_SEXUALLY_EXPLICIT", "BLOCK_MEDIUM_AND_ABOVE"⟩,
    ⟨"HARM_CATEGORY_DANGEROUS_CONTENT", "BLOCK_MEDIUM_AND_ABOVE"⟩ ]

/-- The `contents` array assembled by `callGeminiAPI` (script.js lines
88-108): persona preamble as a synthetic user turn, the fixed model
acknowledgment, the spread of `conversationHistory`, then the new user
message. -/
def callGeminiAPIContents (history : List Turn) (personality message : String) : List Turn :=
  ⟨"user", [⟨systemPrompt personality⟩]⟩ ::
    ⟨"model", [⟨.str "Понял! Буду следовать этому стилю."⟩]⟩ ::
      (history ++ [⟨"user", [⟨.str message⟩]⟩])

/-- The `requestData` object posted by `callGeminiAPI`. -/
structure RequestData where
  contents : List Turn
  generationConfig : GenerationConfig
  safetySettings : List SafetySetting

/-- What `callGeminiAPI` observes of the `fetch` result: the `ok` status
flag and the JSON body — `none` when `response.json()` rejects because the
body is not valid JSON, `some v` when it resolves to the value `v`. -/
structure FetchResponse where
  ok : Bool
  body : Option Js

/-- The failure modes of the exchange: a JSON parse rejection from
`response.json()`, the explicit `throw new Error(...)` of the non-ok
branch (carrying the value used as the message), and a TypeError from a
property access on `undefined`/`null` while extracting the reply text. -/
inductive CallError where
  | parseError
  | apiError (message : Js)
  | typeError

/-- The evaluation of `errorData.error?.message` (script.js line 143):
accessing `.error` throws on a `null` body; the optional chain yields
`undefined` when `.error` is `undefined`/`null`, else reads `.message`. -/
def optionalErrorMessage (data : Js) : Except CallError Js :=
  match jsGet data "error" with
  | none => .error .typeError
  | some e =>
    match e with
    | .undefined => .ok .undefined
    | .null => .ok .undefined
    | e =>
      match jsGet e "message" with
      | none => .error .typeError
      | some m => .ok m

/-- The evaluation of `data.candidates[0].content.parts[0].text`
(script.js line 147): each property/index access on an intermediate
`undefined`/`null` throws a TypeError; a missing `text` property on an
otherwise-present `parts[0]` merely yields `undefined`. -/
def extractText (data : Js) : Except CallError Js :=
  match jsGet data "candidates" with
  | none => .error .typeError
  | some cands =>
    match jsIdx cands 0 with
    | none => .error .typeError
    | some c0 =>
      match jsGet c0 "content" with
      | none => .error .typeError
      | some content =>
        match jsGet content "parts" with
        | none => .error .typeError
        | some parts =>
          match jsIdx parts 0 with
          | none => .error .typeError
          | some p0 =>
            match jsGet p0 "text" with
            | none => .error .typeError
            | some t => .ok t

/-- The response-interpretation tail of `callGeminiAPI` (script.js lines
141-147), as a function of the fetch outcome: on a non-ok status the body
is parsed and `new Error(errorData.error?.message || 'Ошибка API')` is
thrown; on an ok status the body is parsed and the first candidate's first
part text is returned. -/
def callGeminiAPIResult (resp : FetchResponse) : Except CallError Js :=
  if resp.ok = false then
    match resp.body with
    | none => .error .parseError
    | some errorData =>
      match optionalErrorMessage errorData with
      | .error e => .error e
      | .ok m => .error (.apiError (if truthy m then m else .str "Ошибка API"))
  else
    match resp.body with
    | none => .error .parseError
    | some data => extractText data

/-- The mutable globals of script.js that the send path reads and writes:
`conversationHistory`, `currentPersonality`, `isLoading`, plus the result
of `hasApiKey()` (config.js). -/
structure AppState where
  conversationHistory : List Turn
  currentPersonality : String
  isLoading : Bool
  hasApiKey : Bool

/-- The observable outcome of one `sendMessage` invocation: the final
state, the request posted to the network (`none` when no network call was
made), and whether the API-key dialog was opened. -/
structure SendResult where
  state : AppState
  request : Option RequestData
  apiKeyDialogShown : Bool

/-- JavaScript whitespace for `String.prototype.trim` (the characters
relevant to chat input). -/
def isWs (c : Char) : Bool :=
  c == ' ' || c == '\t' || c == '\n' || c == '\r'

/-- `input.value.trim()`: strip leading and trailing whitespace. -/
def jsTrim (s : String) : String :=
  String.mk (((s.toList.dropWhile isWs).reverse.dropWhile isWs).reverse)

/-- The history update of a successful exchange (script.js lines 62-68):
push the user turn, push the model turn, then if the length exceeds
`CONFIG.MAX_HISTORY_LENGTH` keep `slice(-CONFIG.MAX_HISTORY_LENGTH)`, the
most recent `MAX_HISTORY_LENGTH` entries. -/
def updateHistory (history : List Turn) (message : String) (response : Js) : List Turn :=
  let pushed := history ++ [⟨"user", [⟨.str message⟩]⟩, ⟨"model", [⟨response⟩]⟩]
  if CONFIG.MAX_HISTORY_LENGTH < pushed.length then
    pushed.drop (pushed.length - CONFIG.MAX_HISTORY_LENGTH)
  else
    pushed

/-- `sendMessage` (script.js lines 43-80).  The message is the trimmed
input value; an empty message or a set busy flag returns immediately, a
missing API key opens the key dialog and returns, and otherwise the
request is assembled and posted, the given fetch outcome is interpreted,
and on success the two new turns are recorded and the history bounded.
The busy flag is set for the duration of the call and cleared at the end,
so the final state has it cleared; on failure the history is untouched. -/
def sendMessage (st : AppState) (inputValue : String) (resp : FetchResponse) : SendResult :=
  let message := jsTrim inputValue
  if message = "" || st.isLoading then
    { state := st, request := none, apiKeyDialogShown := false }
  else if st.hasApiKey = false then
    { state := st, request := none, apiKeyDialogShown := true }
  else
    let req : RequestData :=
      { contents := callGeminiAPIContents st.conversationHistory st.currentPersonality message
        generationConfig := CONFIG.MODEL_CONFIG
        safetySettings := SAFETY_SETTINGS }
    match callGeminiAPIResult resp with
    | .ok response =>
      { state :=
          { st with
            conversationHistory := updateHistory st.conversationHistory message response
            isLoading := false }
        request := some req
        apiKeyDialogShown := false }
    | .error _ =>
      { state := { st with isLoading := false }
        request := some req
        apiKeyDialogShown := false }

/-- The state touched by the persistence code paths: the two restored
globals plus the sequence of `addMessage(type, text)` render calls made
while replaying (a "user"/"bot" tag with the rendered value). -/
structure ChatPageState where
  conversationHistory : Js
  currentPersonality : Js
  rendered : List (String × Js)

/-- The state at page load before `loadSavedData` runs: empty history,
`'default'` persona, nothing rendered. -/
def initialPageState : ChatPageState :=
  { conversationHistory := .arr [], currentPersonality := .str "default", rendered := [] }

/-- `changePersonality` (script.js lines 180-195): aside from DOM class
toggling, a notification and `saveData()`, it assigns the given id to
`currentPersonality` unconditionally. -/
def changePersonality (personality : Js) (s : ChatPageState) : ChatPageState :=
  { s with currentPersonality := personality }

/-- The display-name table of `getPersonalityName` (script.js lines
198-207). -/
def PERSONALITY_NAMES : List (String × String) :=
  [ ("default", "Стандартный"),
    ("poet", "Поэт"),
    ("teacher", "Учитель"),
    ("friend", "Друг"),
    ("professional", "Профессионал") ]

/-- `getPersonalityName` (script.js lines 198-207): `names[personality] ||
'Стандартный'`. -/
def getPersonalityName (personality : Js) : String :=
  match personality with
  | .str s => ((PERSONALITY_NAMES.lookup s).getD "Стандартный")
  | _ => "Стандартный"

/-- A value of the `gemini_chat_data` localStorage slot as `loadSavedData`
observes it: absent (`getItem` returned null), present but rejected by
`JSON.parse`, or present and parsed to a JSON value. -/
inductive Stored where
  | absent
  | corrupt
  | value (data : Js)

/-- The JSON round-trip image of a part object `{ text: ... }`:
`JSON.stringify` omits object fields whose value is `undefined`. -/
def partToJs (p : Part) : Js :=
  match p.text with
  | .undefined => .obj []
  | t => .obj [("text", t)]

/-- The JSON round-trip image of a turn object. -/
def turnToJs (t : Turn) : Js :=
  .obj [("role", .str t.role), ("parts", .arr (t.parts.map partToJs))]

/-- `saveData` (script.js lines 292-298): stringify
`{conversationHistory, currentPersonality}` into the store.  The stored
string is represented by the JSON value it parses back to. -/
def saveData (conversationHistory : List Turn) (currentPersonality : String) : Stored :=
  .value (.obj
    [ ("conversationHistory", .arr (conversationHistory.map turnToJs)),
      ("currentPersonality", .str currentPersonality) ])

/-- The evaluation of `x.parts[0].text` on a replayed turn (script.js
lines 317-318); `none` models a thrown TypeError. -/
def firstPartText (x : Js) : Option Js :=
  match jsGet x "parts" with
  | none => none
  | some parts =>
    match jsIdx parts 0 with
    | none => none
    | some p0 => jsGet p0 "text"

/-- The replay loop of `loadSavedData` (script.js lines 315-320):
`for (i = 0; i < conversationHistory.length; i += 2)`, rendering the pair
at `i`, `i+1` when both entries are truthy.  A TypeError while reading a
pair aborts the loop (and is caught by the surrounding try); a user
message already rendered before the partner turn throws stays rendered.
`fuel` bounds the recursion and is chosen at the call site to exceed the
iteration count. -/
def replayMessages (h : Js) (len : Js) : Nat → Nat → List (String × Js)
  | 0, _ => []
  | fuel + 1, i =>
    if jsNumLt i len then
      match jsIdx h i, jsIdx h (i + 1) with
      | some a, some b =>
        if truthy a && truthy b then
          match firstPartText a with
          | none => []
          | some t1 =>
            match firstPartText b with
            | none => [("user", t1)]
            | some t2 => ("user", t1) :: ("bot", t2) :: replayMessages h len fuel (i + 2)
        else
          replayMessages h len fuel (i + 2)
      | _, _ => []
    else
      []

/-- Iteration budget for `replayMessages`: one more than the numeric value
of the `length` property the loop compares against. -/
def replayFuel (len : Js) : Nat :=
  match len with
  | .num n => n.toNat + 1
  | .str s => ((s.toInt?.map Int.toNat).getD 0) + 1
  | _ => 0

/-- `loadSavedData` (script.js lines 301-326).  An absent slot is skipped;
everything else runs inside try/catch, so a `JSON.parse` failure or a
TypeError leaves whatever was already assigned in place.  A parsed
snapshot is adopted field-wise with falsy-fallbacks (`data.conversationHistory
|| []`, `data.currentPersonality || 'default'`), `changePersonality` is
re-applied, and a non-empty history is replayed pairwise to the chat view. -/
def loadSavedData (stored : Stored) (s : ChatPageState) : ChatPageState :=
  match stored with
  | .absent => s
  | .corrupt => s
  | .value data =>
    match jsGet data "conversationHistory" with
    | none => s
    | some chRaw =>
      let ch := if truthy chRaw then chRaw else .arr []
      let cpRaw := rawGet data "currentPersonality"
      let cp := if truthy cpRaw then cpRaw else .str "default"
      let s1 := changePersonality cp { s with conversationHistory := ch, currentPersonality := cp }
      let len := rawGet ch "length"
      if jsNumLt 0 len then
        { s1 with rendered := s1.rendered ++ replayMessages ch len (replayFuel len) 0 }
      else
        s1


/-! ### History bounding (sliding window) -/

/-- The user turn pushed for a sent message. -/
def userTurn (text : String) : Turn :=
  ⟨"user", [⟨.str text⟩]⟩

/-- The model turn pushed for a received reply. -/
def modelTurn (response : Js) : Turn :=
  ⟨"model", [⟨response⟩]⟩

/-- The full turn sequence of a list of exchanges, in append order:
user turn then model turn per exchange. -/
def flatTurns : List (String × Js) → List Turn
  | [] => []
  | e :: es => userTurn e.1 :: modelTurn e.2 :: flatTurns es

/-- The history produced by running the exchanges of `es` in order through
the success path of `sendMessage`, starting from an empty history. -/
def historyAfterExchanges (es : List (String × Js)) : List Turn :=
  es.foldl (fun h e => updateHistory h e.1 e.2) []

theorem flatTurns_length (es : List (String × Js)) :
    (flatTurns es).length = 2 * es.length := by
  induction es with
  | nil => rfl
  | cons e es ih =>
    simp [flatTurns, ih]
    omega

/-- `slice(-n)` as an unconditional description of `updateHistory`: when
the pushed list is within the bound, dropping `length - n = 0` elements is
the identity. -/
theorem updateHistory_eq_drop (h : List Turn) (m : String) (r : Js) :
    updateHistory h m r =
      (h ++ [userTurn m, modelTurn r]).drop
        ((h ++ [userTurn m, modelTurn r]).length - CONFIG.MAX_HISTORY_LENGTH) := by
  simp only [updateHistory, userTurn, modelTurn]
  split
  · rfl
  · rename_i hc
    rw [Nat.sub_eq_zero_of_le (by omega), List.drop_zero]

/-- Keeping the last `n` of a list already cut to its last `n`, after
appending more, is the same as keeping the last `n` of the whole. -/
theorem drop_window_append {α : Type} (n : Nat) (xs ys : List α) :
    ((xs.drop (xs.length - n) ++ ys).drop ((xs.drop (xs.length - n) ++ ys).length - n)) =
      ((xs ++ ys).drop ((xs ++ ys).length - n)) := by
  rw [List.drop_append_eq_append_drop, List.drop_append_eq_append_drop, List.drop_drop]
  congr 1
  · congr 1
    simp only [List.length_append, List.length_drop]
    omega
  · congr 1
    simp only [List.length_append, List.length_drop]
    omega

theorem historyAfterExchanges_general (es : List (String × Js)) :
    ∀ h : List Turn, h.length ≤ CONFIG.MAX_HISTORY_LENGTH →
      es.foldl (fun h e => updateHistory h e.1 e.2) h =
        (h ++ flatTurns es).drop ((h ++ flatTurns es).length - CONFIG.MAX_HISTORY_LENGTH) := by
  induction es with
  | nil =>
    intro h hle
    simp only [flatTurns, List.append_nil, List.foldl_nil]
    rw [Nat.sub_eq_zero_of_le hle, List.drop_zero]
  | cons e es ih =>
    intro h hle
    have hM : CONFIG.MAX_HISTORY_LENGTH = 20 := rfl
    have hstep : updateHistory h e.1 e.2 =
        (h ++ [userTurn e.1, modelTurn e.2]).drop
          ((h ++ [userTurn e.1, modelTurn e.2]).length - CONFIG.MAX_HISTORY_LENGTH) :=
      updateHistory_eq_drop h e.1 e.2
    have hlen : (updateHistory h e.1 e.2).length ≤ CONFIG.MAX_HISTORY_LENGTH := by
      rw [hstep]
      simp only [List.length_drop, List.length_append, List.length_cons, List.length_nil]
      omega
    calc (e :: es).foldl (fun h e => updateHistory h e.1 e.2) h
        = es.foldl (fun h e => updateHistory h e.1 e.2) (updateHistory h e.1 e.2) := rfl
      _ = ((updateHistory h e.1 e.2) ++ flatTurns es).drop
            (((updateHistory h e.1 e.2) ++ flatTurns es).length - CONFIG.MAX_HISTORY_LENGTH) :=
          ih (updateHistory h e.1 e.2) hlen
      _ = ((h ++ flatTurns (e :: es)).drop ((h ++ flatTurns (e :: es)).length - CONFIG.MAX_HISTORY_LENGTH)) := by
          rw [hstep, drop_window_append CONFIG.MAX_HISTORY_LENGTH
            (h ++ [userTurn e.1, modelTurn e.2]) (flatTurns es)]
          simp [flatTurns]

/-- C2: for every sequence of successful exchanges appended to an initially
empty history, once twice the exchange count exceeds
`CONFIG.MAX_HISTORY_LENGTH` (= 20) the resulting history has exactly that
bounded length and consists of exactly the most recently appended turns of
the full sequence, in their original relative order (oldest dropped from
the front). -/
theorem history_sliding_window (es : List (String × Js))
    (hgt : CONFIG.MAX_HISTORY_LENGTH < 2 * es.length) :
    (historyAfterExchanges es).length = CONFIG.MAX_HISTORY_LENGTH ∧
      historyAfterExchanges es =
        (flatTurns es).drop (2 * es.length - CONFIG.MAX_HISTORY_LENGTH) := by
  have hbase := historyAfterExchanges_general es [] (by simp)
  have hflat := flatTurns_length es
  constructor
  · unfold historyAfterExchanges
    rw [hbase]
    simp only [List.nil_append, List.length_drop]
    omega
  · unfold historyAfterExchanges
    rw [hbase]
    simp only [List.nil_append]
    rw [hflat]

/-- Eleven concrete exchanges (22 turns, exceeding the bound of 20). -/
def exchangesEleven : List (String × Js) :=
  [ ("u1", .str "m1"), ("u2", .str "m2"), ("u3", .str "m3"), ("u4", .str "m4"),
    ("u5", .str "m5"), ("u6", .str "m6"), ("u7", .str "m7"), ("u8", .str "m8"),
    ("u9", .str "m9"), ("u10", .str "m10"), ("u11", .str "m11") ]

/-- Witness for `history_sliding_window` at eleven exchanges. -/
theorem history_sliding_window_witness :
    CONFIG.MAX_HISTORY_LENGTH < 2 * exchangesEleven.length ∧
      ((historyAfterExchanges exchangesEleven).length = CONFIG.MAX_HISTORY_LENGTH ∧
        historyAfterExchanges exchangesEleven =
          (flatTurns exchangesEleven).drop
            (2 * exchangesEleven.length - CONFIG.MAX_HISTORY_LENGTH)) :=
  ⟨by decide, history_sliding_window exchangesEleven (by decide)⟩

/-! ### Request assembly -/

/-- C3: for every history, known persona and new message, the assembled
message list is exactly preamble turn, acknowledgment turn, the history in
order, then the new user message; and for every persona whatsoever the
list has length `2 + historyLength + 1` with the first two synthetic
entries present, only their text varying. -/
theorem buildRequest_contents_shape (history : List Turn) (personality message : String)
    (hp : personality ∈ knownPersonalityIds) :
    (∃ preamble : String,
      CONFIG.PERSONALITIES.lookup personality = some preamble ∧
        callGeminiAPIContents history personality message =
          ⟨"user", [⟨.str preamble⟩]⟩ ::
            ⟨"model", [⟨.str "Понял! Буду следовать этому стилю."⟩]⟩ ::
              (history ++ [⟨"user", [⟨.str message⟩]⟩])) ∧
    (∀ q : String,
      (callGeminiAPIContents history q message).length = 2 + history.length + 1 ∧
        callGeminiAPIContents history q message =
          ⟨"user", [⟨systemPrompt q⟩]⟩ ::
            ⟨"model", [⟨.str "Понял! Буду следовать этому стилю."⟩]⟩ ::
              (history ++ [⟨"user", [⟨.str message⟩]⟩])) := by
  constructor
  · simp only [knownPersonalityIds, CONFIG, List.map, List.mem_cons, List.not_mem_nil,
      or_false] at hp
    rcases hp with h | h | h | h | h <;>
      · subst h
        exact ⟨_, rfl, rfl⟩
  · intro q
    constructor
    · simp [callGeminiAPIContents]
      omega
    · rfl

/-- Witness for `buildRequest_contents_shape`: the spec's worked example of
sending "Hello" with empty history and persona "friend". -/
theorem buildRequest_contents_shape_witness :
    ("friend" ∈ knownPersonalityIds) ∧
      ((∃ preamble : String,
        CONFIG.PERSONALITIES.lookup "friend" = some preamble ∧
          callGeminiAPIContents [] "friend" "Hello" =
            ⟨"user", [⟨.str preamble⟩]⟩ ::
              ⟨"model", [⟨.str "Понял! Буду следовать этому стилю."⟩]⟩ ::
                (([] : List Turn) ++ [⟨"user", [⟨.str "Hello"⟩]⟩])) ∧
      (∀ q : String,
        (callGeminiAPIContents [] q "Hello").length = 2 + ([] : List Turn).length + 1 ∧
          callGeminiAPIContents [] q "Hello" =
            ⟨"user", [⟨systemPrompt q⟩]⟩ ::
              ⟨"model", [⟨.str "Понял! Буду следовать этому стилю."⟩]⟩ ::
                (([] : List Turn) ++ [⟨"user", [⟨.str "Hello"⟩]⟩]))) :=
  ⟨by decide, buildRequest_contents_shape [] "friend" "Hello" (by decide)⟩

/-! ### Send-path guards -/

/-- C8: the send path makes no network call and leaves the state (history,
persona, everything) untouched when the trimmed message is empty or a
request is already in flight; with both guards passed but the credential
absent it likewise makes no network call, leaves the state untouched, and
opens the API-key dialog. -/
theorem send_guard_behavior (st : AppState) (inputValue : String) (resp : FetchResponse) :
    (jsTrim inputValue = "" ∨ st.isLoading = true →
      sendMessage st inputValue resp = ⟨st, none, false⟩) ∧
    (jsTrim inputValue ≠ "" → st.isLoading = false → st.hasApiKey = false →
      sendMessage st inputValue resp = ⟨st, none, true⟩) := by
  constructor
  · intro h
    rcases h with h | h <;> simp [sendMessage, h]
  · intro h1 h2 h3
    simp [sendMessage, h1, h2, h3]

/-- Witness for `send_guard_behavior`: a whitespace-only message on an
idle keyed state, and a non-empty message on an idle keyless state. -/
theorem send_guard_behavior_witness :
    ((jsTrim "   " = "" ∨ (⟨[], "default", false, true⟩ : AppState).isLoading = true) ∧
      sendMessage ⟨[], "default", false, true⟩ "   " ⟨true, none⟩ =
        ⟨⟨[], "default", false, true⟩, none, false⟩) ∧
    ((jsTrim "hi" ≠ "" ∧ (⟨[], "default", false, false⟩ : AppState).isLoading = false ∧
        (⟨[], "default", false, false⟩ : AppState).hasApiKey = false) ∧
      sendMessage ⟨[], "default", false, false⟩ "hi" ⟨true, none⟩ =
        ⟨⟨[], "default", false, false⟩, none, true⟩) :=
  ⟨⟨Or.inl (by decide),
      (send_guard_behavior ⟨[], "default", false, true⟩ "   " ⟨true, none⟩).1
        (Or.inl (by decide))⟩,
    ⟨⟨by decide, rfl, rfl⟩,
      (send_guard_behavior ⟨[], "default", false, false⟩ "hi" ⟨true, none⟩).2
        (by decide) rfl rfl⟩⟩

/-! ### Message length is not enforced -/

/-- C10: `CONFIG.MAX_MESSAGE_LENGTH` is never consulted by the send path:
any message whose trimmed text is non-empty — in particular one longer
than the configured maximum — is assembled and posted in full, as an entry
of the request's message list. -/
theorem max_message_length_unenforced (st : AppState) (inputValue : String)
    (resp : FetchResponse)
    (hlen : CONFIG.MAX_MESSAGE_LENGTH < (jsTrim inputValue).length)
    (hbusy : st.isLoading = false) (hkey : st.hasApiKey = true) :
    ∃ req : RequestData,
      (sendMessage st inputValue resp).request = some req ∧
        req.contents =
          callGeminiAPIContents st.conversationHistory st.currentPersonality
            (jsTrim inputValue) ∧
        Turn.mk "user" [⟨.str (jsTrim inputValue)⟩] ∈ req.contents := by
  have hne : jsTrim inputValue ≠ "" := by
    intro h
    rw [h] at hlen
    simp [CONFIG] at hlen
  have hmem :
      Turn.mk "user" [⟨.str (jsTrim inputValue)⟩] ∈
        callGeminiAPIContents st.conversationHistory st.currentPersonality
          (jsTrim inputValue) := by
    simp [callGeminiAPIContents]
  refine ⟨⟨callGeminiAPIContents st.conversationHistory st.currentPersonality
      (jsTrim inputValue), CONFIG.MODEL_CONFIG, SAFETY_SETTINGS⟩, ?_, rfl, hmem⟩
  rcases hres : callGeminiAPIResult resp with v | e
  · simp [sendMessage, hne, hbusy, hkey, hres]
  · simp [sendMessage, hne, hbusy, hkey, hres]

/-- A 4097-character message, exceeding `MAX_MESSAGE_LENGTH` = 4096. -/
def longMessage : String :=
  String.mk (List.replicate 4097 'a')

/-- Trimming a string of `n` copies of a non-whitespace character changes
nothing. -/
theorem jsTrim_replicate (n : Nat) (c : Char) (hc : isWs c = false) :
    jsTrim (String.mk (List.replicate n c)) = String.mk (List.replicate n c) := by
  have hdrop : List.dropWhile isWs (List.replicate n c) = List.replicate n c := by
    rw [List.dropWhile_replicate]
    simp [hc]
  unfold jsTrim
  rw [show (String.mk (List.replicate n c)).toList = List.replicate n c from rfl,
    hdrop, List.reverse_replicate, hdrop, List.reverse_replicate]

theorem jsTrim_longMessage : jsTrim longMessage = longMessage :=
  jsTrim_replicate 4097 'a' rfl

/-- Witness for `max_message_length_unenforced` at a 4097-character
message. -/
theorem max_message_length_unenforced_witness :
    (CONFIG.MAX_MESSAGE_LENGTH < (jsTrim longMessage).length ∧
      (⟨[], "default", false, true⟩ : AppState).isLoading = false ∧
      (⟨[], "default", false, true⟩ : AppState).hasApiKey = true) ∧
    (∃ req : RequestData,
      (sendMessage ⟨[], "default", false, true⟩ longMessage ⟨true, none⟩).request = some req ∧
        req.contents = callGeminiAPIContents [] "default" (jsTrim longMessage) ∧
        Turn.mk "user" [⟨.str (jsTrim longMessage)⟩] ∈ req.contents) := by
  have hlen : CONFIG.MAX_MESSAGE_LENGTH < (jsTrim longMessage).length := by
    rw [jsTrim_longMessage]
    rw [show longMessage.length = (List.replicate 4097 'a').length from rfl,
      List.length_replicate]
    decide
  exact ⟨⟨hlen, rfl, rfl⟩,
    max_message_length_unenforced ⟨[], "default", false, true⟩ longMessage ⟨true, none⟩
      hlen rfl rfl⟩

/-! ### Error-path semantics -/

/-- The value of `errorData.error?.message` for a payload on which the
chain does not throw. -/
def rawErrorMessage (data : Js) : Js :=
  match rawGet data "error" with
  | .undefined => .undefined
  | .null => .undefined
  | e => rawGet e "message"

theorem optionalErrorMessage_obj (fs : List (String × Js)) :
    optionalErrorMessage (.obj fs) = .ok (rawErrorMessage (.obj fs)) := by
  unfold optionalErrorMessage rawErrorMessage
  rcases h : rawGet (.obj fs) "error" with _ | _ | b | n | s | xs | gs <;>
    simp_all [rawGet, jsGet]

/-- C4 (amended): a non-success response always fails the call; when its
payload parses to an object the failure is the thrown
`Error(errorData.error?.message || 'Ошибка API')` — the payload's
`error.message` value when that value is truthy (in particular a non-empty
string), the generic fallback otherwise; and on any such failure the
conversation history and persona are left unchanged (the two turns of an
exchange are appended only after a successful reply). -/
theorem error_status_behavior (st : AppState) (inputValue : String) (resp : FetchResponse)
    (hok : resp.ok = false) :
    (∃ e : CallError, callGeminiAPIResult resp = .error e) ∧
    (∀ fs : List (String × Js), resp.body = some (.obj fs) →
      callGeminiAPIResult resp =
        .error (.apiError
          (if truthy (rawErrorMessage (.obj fs)) then rawErrorMessage (.obj fs)
           else .str "Ошибка API"))) ∧
    (sendMessage st inputValue resp).state.conversationHistory = st.conversationHistory ∧
    (sendMessage st inputValue resp).state.currentPersonality = st.currentPersonality := by
  have hfail : ∃ e : CallError, callGeminiAPIResult resp = .error e := by
    unfold callGeminiAPIResult
    rw [hok]
    rcases resp.body with _ | data
    · exact ⟨.parseError, rfl⟩
    · rcases hm : optionalErrorMessage data with e | m
      · exact ⟨e, by simp [hm]⟩
      · refine ⟨.apiError (if truthy m then m else .str "Ошибка API"), ?_⟩
        simp [hm]
  refine ⟨hfail, ?_, ?_⟩
  · intro fs hbody
    simp [callGeminiAPIResult, hok, hbody, optionalErrorMessage_obj]
  · obtain ⟨e, he⟩ := hfail
    by_cases hmsg : jsTrim inputValue = ""
    · simp [sendMessage, hmsg]
    · cases hload : st.isLoading with
      | true => simp [sendMessage, hload]
      | false =>
        cases hkey : st.hasApiKey with
        | false => simp [sendMessage, hmsg, hload, hkey]
        | true => simp [sendMessage, hmsg, hload, hkey, he]

/-- C4 counterexample to the claim as stated: a non-success payload whose
`error.message` field is present but the empty string; the thrown message
is the generic fallback, not the (empty) field value. -/
theorem error_message_empty_string_fallback :
    rawGet (rawGet (.obj [("error", .obj [("message", .str "")])]) "error") "message"
        = .str "" ∧
    callGeminiAPIResult ⟨false, some (.obj [("error", .obj [("message", .str "")])])⟩
        = .error (.apiError (.str "Ошибка API")) ∧
    Js.str "Ошибка API" ≠ Js.str "" :=
  ⟨rfl, rfl, by simp⟩

/-- Witness for `error_status_behavior`: the spec's simulated failure
payload with message "quota exceeded". -/
theorem error_status_behavior_witness :
    (⟨false, some (.obj [("error", .obj [("message", .str "quota exceeded")])])⟩ :
        FetchResponse).ok = false ∧
    ((∃ e : CallError,
        callGeminiAPIResult
          ⟨false, some (.obj [("error", .obj [("message", .str "quota exceeded")])])⟩
          = .error e) ∧
      (∀ fs : List (String × Js),
        (⟨false, some (.obj [("error", .obj [("message", .str "quota exceeded")])])⟩ :
            FetchResponse).body = some (.obj fs) →
        callGeminiAPIResult
            ⟨false, some (.obj [("error", .obj [("message", .str "quota exceeded")])])⟩
          = .error (.apiError
              (if truthy (rawErrorMessage (.obj fs)) then rawErrorMessage (.obj fs)
               else .str "Ошибка API"))) ∧
      (sendMessage ⟨[], "default", false, true⟩ "hi"
          ⟨false, some (.obj [("error", .obj [("message", .str "quota exceeded")])])⟩).state.conversationHistory
        = (⟨[], "default", false, true⟩ : AppState).conversationHistory ∧
      (sendMessage ⟨[], "default", false, true⟩ "hi"
          ⟨false, some (.obj [("error", .obj [("message", .str "quota exceeded")])])⟩).state.currentPersonality
        = (⟨[], "default", false, true⟩ : AppState).currentPersonality) :=
  ⟨rfl,
    error_status_behavior ⟨[], "default", false, true⟩ "hi"
      ⟨false, some (.obj [("error", .obj [("message", .str "quota exceeded")])])⟩ rfl⟩

/-! ### Success-path reply extraction -/

theorem jsGet_none_iff (v : Js) (k : String) :
    jsGet v k = none ↔ isNullOrUndefined v = true := by
  cases v <;> simp [jsGet, isNullOrUndefined]

theorem jsGet_of_not_null (v : Js) (k : String) (h : isNullOrUndefined v = false) :
    jsGet v k = some (rawGet v k) := by
  cases v <;> simp_all [jsGet, rawGet, isNullOrUndefined]

theorem jsIdx_none_iff (v : Js) (i : Nat) :
    jsIdx v i = none ↔ isNullOrUndefined v = true := by
  cases v <;> simp [jsIdx, isNullOrUndefined]

theorem jsIdx_of_not_null (v : Js) (i : Nat) (h : isNullOrUndefined v = false) :
    jsIdx v i = some (rawIdx v i) := by
  cases v <;> simp_all [jsIdx, rawIdx, isNullOrUndefined]

/-- Whether the access chain `data.candidates[0].content.parts[0].text`
hits an `undefined`/`null` intermediate (and therefore throws) before its
final `.text` access. -/
def replyShapeBroken (data : Js) : Bool :=
  isNullOrUndefined data ||
    isNullOrUndefined (rawGet data "candidates") ||
      isNullOrUndefined (rawIdx (rawGet data "candidates") 0) ||
        isNullOrUndefined (rawGet (rawIdx (rawGet data "candidates") 0) "content") ||
          isNullOrUndefined
              (rawGet (rawGet (rawIdx (rawGet data "candidates") 0) "content") "parts") ||
            isNullOrUndefined
              (rawIdx (rawGet (rawGet (rawIdx (rawGet data "candidates") 0) "content") "parts")
                0)

/-- The extracted reply value when the chain does not throw (possibly
`undefined`, when `parts[0]` lacks a `text` field). -/
def replyText (data : Js) : Js :=
  rawGet
    (rawIdx (rawGet (rawGet (rawIdx (rawGet data "candidates") 0) "content") "parts") 0)
    "text"

theorem extractText_spec (data : Js) :
    (replyShapeBroken data = true ∧ extractText data = .error .typeError) ∨
    (replyShapeBroken data = false ∧ extractText data = .ok (replyText data)) := by
  unfold extractText replyShapeBroken replyText
  by_cases h0 : isNullOrUndefined data = true
  · simp only [(jsGet_none_iff data "candidates").mpr h0]
    simp [h0]
  · rw [Bool.not_eq_true] at h0
    simp only [jsGet_of_not_null data "candidates" h0]
    by_cases h1 : isNullOrUndefined (rawGet data "candidates") = true
    · simp only [(jsIdx_none_iff _ 0).mpr h1]
      simp [h0, h1]
    · rw [Bool.not_eq_true] at h1
      simp only [jsIdx_of_not_null _ 0 h1]
      by_cases h2 : isNullOrUndefined (rawIdx (rawGet data "candidates") 0) = true
      · simp only [(jsGet_none_iff _ "content").mpr h2]
        simp [h0, h1, h2]
      · rw [Bool.not_eq_true] at h2
        simp only [jsGet_of_not_null _ "content" h2]
        by_cases h3 :
            isNullOrUndefined (rawGet (rawIdx (rawGet data "candidates") 0) "content") = true
        · simp only [(jsGet_none_iff _ "parts").mpr h3]
          simp [h0, h1, h2, h3]
        · rw [Bool.not_eq_true] at h3
          simp only [jsGet_of_not_null _ "parts" h3]
          by_cases h4 : isNullOrUndefined
              (rawGet (rawGet (rawIdx (rawGet data "candidates") 0) "content") "parts") = true
          · simp only [(jsIdx_none_iff _ 0).mpr h4]
            simp [h0, h1, h2, h3, h4]
          · rw [Bool.not_eq_true] at h4
            simp only [jsIdx_of_not_null _ 0 h4]
            by_cases h5 : isNullOrUndefined
                (rawIdx (rawGet (rawGet (rawIdx (rawGet data "candidates") 0) "content")
                  "parts") 0) = true
            · simp only [(jsGet_none_iff _ "text").mpr h5]
              simp [h0, h1, h2, h3, h4, h5]
            · rw [Bool.not_eq_true] at h5
              simp only [jsGet_of_not_null _ "text" h5]
              simp [h0, h1, h2, h3, h4, h5]

/-- C6 (amended): a success-status response with a parsed body fails
exactly when the access chain `candidates[0].content.parts[0]` hits an
`undefined`/`null` intermediate; when the chain reaches `parts[0]`, the
call returns the `text` property value — which is the `undefined` value,
not a failure, when only the `text` field is absent. -/
theorem success_reply_extraction (resp : FetchResponse) (data : Js)
    (hok : resp.ok = true) (hbody : resp.body = some data) :
    ((∃ e : CallError, callGeminiAPIResult resp = .error e) ↔ replyShapeBroken data = true) ∧
    (replyShapeBroken data = false → callGeminiAPIResult resp = .ok (replyText data)) := by
  have hcall : callGeminiAPIResult resp = extractText data := by
    unfold callGeminiAPIResult
    rw [hok, hbody]
    simp
  rcases extractText_spec data with ⟨hb, he⟩ | ⟨hb, he⟩
  · constructor
    · rw [hcall, he]
      simp [hb]
    · intro hcontra
      rw [hb] at hcontra
      cases hcontra
  · constructor
    · rw [hcall, he]
      simp [hb]
    · intro _
      rw [hcall, he]

/-- C6 counterexample to the claim as stated: a success response whose
first part exists but lacks the `text` field; the call returns (the
`undefined` value) instead of failing. -/
theorem missing_text_returns_undefined :
    callGeminiAPIResult
        ⟨true, some (.obj [("candidates",
          .arr [.obj [("content", .obj [("parts", .arr [.obj []])])]])])⟩
      = .ok .undefined ∧
    (callGeminiAPIResult
        ⟨true, some (.obj [("candidates",
          .arr [.obj [("content", .obj [("parts", .arr [.obj []])])]])])⟩).isOk = true :=
  ⟨rfl, rfl⟩

/-- Witness for `success_reply_extraction`: the spec's simulated success
payload, whose reply text is extracted as "Hi there". -/
theorem success_reply_extraction_witness :
    ((⟨true, some (.obj [("candidates",
        .arr [.obj [("content", .obj [("parts", .arr [.obj [("text", .str "Hi there")]])])]])])⟩ :
          FetchResponse).ok = true ∧
      (⟨true, some (.obj [("candidates",
        .arr [.obj [("content", .obj [("parts", .arr [.obj [("text", .str "Hi there")]])])]])])⟩ :
          FetchResponse).body
        = some (.obj [("candidates",
            .arr [.obj [("content",
              .obj [("parts", .arr [.obj [("text", .str "Hi there")]])])]])])) ∧
    (((∃ e : CallError,
        callGeminiAPIResult ⟨true, some (.obj [("candidates",
          .arr [.obj [("content", .obj [("parts", .arr [.obj [("text", .str "Hi there")]])])]])])⟩
          = .error e) ↔
        replyShapeBroken (.obj [("candidates",
          .arr [.obj [("content", .obj [("parts", .arr [.obj [("text", .str "Hi there")]])])]])])
          = true) ∧
      (replyShapeBroken (.obj [("candidates",
          .arr [.obj [("content", .obj [("parts", .arr [.obj [("text", .str "Hi there")]])])]])])
          = false →
        callGeminiAPIResult ⟨true, some (.obj [("candidates",
          .arr [.obj [("content", .obj [("parts", .arr [.obj [("text", .str "Hi there")]])])]])])⟩
          = .ok (replyText (.obj [("candidates",
              .arr [.obj [("content",
                .obj [("parts", .arr [.obj [("text", .str "Hi there")]])])]])])))) :=
  ⟨⟨rfl, rfl⟩,
    success_reply_extraction
      ⟨true, some (.obj [("candidates",
        .arr [.obj [("content", .obj [("parts", .arr [.obj [("text", .str "Hi there")]])])]])])⟩
      (.obj [("candidates",
        .arr [.obj [("content", .obj [("parts", .arr [.obj [("text", .str "Hi there")]])])]])])
      rfl rfl⟩


/-! ### Persona updates -/

/-- C1 counterexample to the claim as stated: `changePersonality` with the
unknown id "bogus" leaves the active persona "bogus", and loading a
snapshot carrying the unknown persona value "mystery" leaves the active
persona "mystery" — neither is in the known set and neither becomes
"default". -/
theorem changePersonality_unknown_id_kept :
    (changePersonality (.str "bogus") initialPageState).currentPersonality = .str "bogus" ∧
    "bogus" ∉ knownPersonalityIds ∧
    (loadSavedData (.value (.obj
        [("conversationHistory", .arr []), ("currentPersonality", .str "mystery")]))
      initialPageState).currentPersonality = .str "mystery" ∧
    "mystery" ∉ knownPersonalityIds :=
  ⟨rfl, by decide, rfl, by decide⟩

/-- C1 (amended): `changePersonality` performs no validation — the active
persona becomes exactly the id passed, known or not; and `loadSavedData`
falls back to "default" exactly when the stored persona value is falsy
(absent, empty, null, ...), adopting any truthy stored value — known or
not — unchanged. -/
theorem persona_update_semantics :
    (∀ (p : Js) (s : ChatPageState), (changePersonality p s).currentPersonality = p) ∧
    (∀ (hv pv : Js) (s : ChatPageState),
      (loadSavedData (.value (.obj
          [("conversationHistory", hv), ("currentPersonality", pv)])) s).currentPersonality
        = if truthy pv then pv else .str "default") := by
  constructor
  · intro p s
    rfl
  · intro hv pv s
    simp only [loadSavedData, jsGet, lookupField, rawGet, changePersonality]
    norm_num
    split <;> split <;> simp

/-! ### Loading absent or malformed snapshots -/

/-- C5 counterexample to the claim as stated: a present, JSON-parseable
but malformed snapshot (history slot holds the number 5) is adopted
field-wise, yielding a state that is neither empty-history nor
"default"-persona. -/
theorem load_malformed_snapshot_adopted :
    (loadSavedData (.value (.obj
        [("conversationHistory", .num 5), ("currentPersonality", .str "poet")]))
      initialPageState).conversationHistory = .num 5 ∧
    Js.num 5 ≠ initialPageState.conversationHistory ∧
    (loadSavedData (.value (.obj
        [("conversationHistory", .num 5), ("currentPersonality", .str "poet")]))
      initialPageState).currentPersonality = .str "poet" ∧
    Js.str "poet" ≠ Js.str "default" :=
  ⟨rfl, by simp [initialPageState], rfl, by simp⟩

/-- C5 (amended): an absent snapshot, a snapshot `JSON.parse` rejects, and
a parsed snapshot on which the first field access throws (a JSON `null`)
all leave the state exactly as it was — the empty-history/"default" state
at startup; no failure is surfaced (the model of `loadSavedData` is a
total function: every throw is caught inside it).  Malformed-but-parseable
snapshots, by contrast, are adopted field-wise (see the counterexample). -/
theorem load_absent_or_unparseable_default :
    (∀ s : ChatPageState, loadSavedData .absent s = s) ∧
    (∀ s : ChatPageState, loadSavedData .corrupt s = s) ∧
    (∀ s : ChatPageState, loadSavedData (.value .null) s = s) ∧
    loadSavedData .absent initialPageState = initialPageState ∧
    loadSavedData .corrupt initialPageState = initialPageState :=
  ⟨fun _ => rfl, fun _ => rfl, fun _ => rfl, rfl, rfl⟩


/-! ### Persistence round trip -/

theorem partToJs_injective : Function.Injective partToJs := by
  intro p q h
  cases p with
  | mk t =>
    cases q with
    | mk u =>
      cases t <;> cases u <;> simp_all [partToJs]

theorem turnToJs_injective : Function.Injective turnToJs := by
  intro a b h
  cases a with
  | mk ra pa =>
    cases b with
    | mk rb pb =>
      simp only [turnToJs, Js.obj.injEq, List.cons.injEq, Prod.mk.injEq, Js.str.injEq,
        Js.arr.injEq, and_true, true_and] at h
      obtain ⟨h1, h2⟩ := h
      have := List.map_injective_iff.mpr partToJs_injective h2
      simp_all

/-- Every known persona id is a non-empty string. -/
theorem known_persona_ne_empty (p : String) (hp : p ∈ knownPersonalityIds) : p ≠ "" := by
  simp only [knownPersonalityIds, CONFIG, List.map, List.mem_cons, List.not_mem_nil,
    or_false] at hp
  rcases hp with h | h | h | h | h <;> subst h <;> decide

/-- C7: saving a state with a known persona id and non-empty history and
loading it back restores exactly the saved pair — the in-memory history is
the stored turn array and the persona the stored id, and the encoding is
injective, so the restored pair identifies the original `{history,
personaId}` uniquely. -/
theorem save_load_roundtrip (h : List Turn) (p : String)
    (hp : p ∈ knownPersonalityIds) (hne : h ≠ []) :
    (loadSavedData (saveData h p) initialPageState).conversationHistory
        = .arr (h.map turnToJs) ∧
    (loadSavedData (saveData h p) initialPageState).currentPersonality = .str p ∧
    (∀ (h2 : List Turn) (p2 : String),
      Js.arr (h2.map turnToJs) = Js.arr (h.map turnToJs) → Js.str p2 = Js.str p →
        h2 = h ∧ p2 = p) := by
  have hpne : p ≠ "" := known_persona_ne_empty p hp
  refine ⟨?_, ?_, ?_⟩
  · simp [loadSavedData, saveData, jsGet, lookupField, rawGet, changePersonality, truthy,
      hpne]
    split <;> rfl
  · simp [loadSavedData, saveData, jsGet, lookupField, rawGet, changePersonality, truthy,
      hpne]
    split <;> rfl
  · intro h2 p2 e1 e2
    constructor
    · have hmap : h2.map turnToJs = h.map turnToJs := by
        simpa using e1
      exact List.map_injective_iff.mpr turnToJs_injective hmap
    · simpa using e2

/-- Witness for `save_load_roundtrip`: the two-turn "Hello"/"Hi there"
history under persona "friend". -/
theorem save_load_roundtrip_witness :
    ("friend" ∈ knownPersonalityIds ∧
      ([⟨"user", [⟨.str "Hello"⟩]⟩, ⟨"model", [⟨.str "Hi there"⟩]⟩] : List Turn) ≠ []) ∧
    ((loadSavedData
        (saveData [⟨"user", [⟨.str "Hello"⟩]⟩, ⟨"model", [⟨.str "Hi there"⟩]⟩] "friend")
        initialPageState).conversationHistory
      = .arr (([⟨"user", [⟨.str "Hello"⟩]⟩, ⟨"model", [⟨.str "Hi there"⟩]⟩] :
          List Turn).map turnToJs) ∧
    (loadSavedData
        (saveData [⟨"user", [⟨.str "Hello"⟩]⟩, ⟨"model", [⟨.str "Hi there"⟩]⟩] "friend")
        initialPageState).currentPersonality = .str "friend" ∧
    (∀ (h2 : List Turn) (p2 : String),
      Js.arr (h2.map turnToJs)
          = Js.arr (([⟨"user", [⟨.str "Hello"⟩]⟩, ⟨"model", [⟨.str "Hi there"⟩]⟩] :
              List Turn).map turnToJs) →
        Js.str p2 = Js.str "friend" →
        h2 = [⟨"user", [⟨.str "Hello"⟩]⟩, ⟨"model", [⟨.str "Hi there"⟩]⟩] ∧ p2 = "friend")) :=
  ⟨⟨by decide, by simp⟩,
    save_load_roundtrip [⟨"user", [⟨.str "Hello"⟩]⟩, ⟨"model", [⟨.str "Hi there"⟩]⟩]
      "friend" (by decide) (by simp)⟩


/-! ### Odd-length history restoration -/

theorem listGetD_mem (l : List Js) (i : Nat) (h : i < l.length) : listGetD l i ∈ l := by
  induction l generalizing i with
  | nil => simp at h
  | cons x xs ih =>
    cases i with
    | zero => simp [listGetD]
    | succ n =>
      simp only [listGetD]
      exact List.mem_cons_of_mem _ (ih n (by simpa using h))

theorem listGetD_of_ge (l : List Js) (i : Nat) (h : l.length ≤ i) :
    listGetD l i = .undefined := by
  induction l generalizing i with
  | nil => cases i <;> rfl
  | cons x xs ih =>
    cases i with
    | zero => simp at h
    | succ n => exact ih n (by simpa using h)

theorem jsGet_partToJs_isSome (p : Part) : ∃ v, jsGet (partToJs p) "text" = some v := by
  cases p with
  | mk tx => cases tx <;> exact ⟨_, rfl⟩

theorem truthy_turnToJs (t : Turn) : truthy (turnToJs t) = true := rfl

theorem firstPartText_turnToJs (t : Turn) (h : t.parts ≠ []) :
    ∃ v, firstPartText (turnToJs t) = some v := by
  obtain ⟨q, qs, hq⟩ : ∃ q qs, t.parts = q :: qs := by
    cases hpp : t.parts with
    | nil => exact absurd hpp h
    | cons q qs => exact ⟨q, qs, rfl⟩
  obtain ⟨v, hv⟩ := jsGet_partToJs_isSome q
  refine ⟨v, ?_⟩
  unfold firstPartText turnToJs
  rw [hq]
  simp only [jsGet, lookupField, List.map, if_neg (by decide : ¬("role" = "parts")),
    if_pos rfl, Option.getD_some, jsIdx, listGetD]
  exact hv

/-- Length of the replay output on a well-formed turn array: starting at
index `i` with `2m + 1` entries left, the loop renders the `m` complete
pairs and skips the final unpaired entry. -/
theorem replayMessages_count (js : List Js)
    (hw : ∀ x ∈ js, ∃ t : Turn, x = turnToJs t ∧ t.parts ≠ []) :
    ∀ (m i fuel : Nat), m + 2 ≤ fuel → i + (2 * m + 1) = js.length →
      (replayMessages (.arr js) (.num (js.length : Int)) fuel i).length = 2 * m := by
  intro m
  induction m with
  | zero =>
    intro i fuel hfuel hlen
    obtain ⟨f, rfl⟩ : ∃ f, fuel = f + 2 := ⟨fuel - 2, by omega⟩
    have hg1 : jsNumLt (i : Int) (.num (js.length : Int)) = true := by
      simp only [jsNumLt, decide_eq_true_eq]
      omega
    have hg2 : jsNumLt ((i : Int) + 2) (.num (js.length : Int)) = false := by
      simp only [jsNumLt, decide_eq_false_iff_not]
      omega
    have hb : listGetD js (i + 1) = .undefined := listGetD_of_ge js (i + 1) (by omega)
    simp only [replayMessages, hg1, if_true, jsIdx, hb]
    simp [truthy, replayMessages, hg2]
  | succ m ih =>
    intro i fuel hfuel hlen
    obtain ⟨f, rfl⟩ : ∃ f, fuel = f + 1 := ⟨fuel - 1, by omega⟩
    have hg1 : jsNumLt (i : Int) (.num (js.length : Int)) = true := by
      simp only [jsNumLt, decide_eq_true_eq]
      omega
    obtain ⟨t, hta, htp⟩ := hw _ (listGetD_mem js i (by omega))
    obtain ⟨u, hua, hup⟩ := hw _ (listGetD_mem js (i + 1) (by omega))
    obtain ⟨v1, hv1⟩ := firstPartText_turnToJs t htp
    obtain ⟨v2, hv2⟩ := firstPartText_turnToJs u hup
    simp only [replayMessages, hg1, if_true, jsIdx, hta, hua, truthy_turnToJs,
      Bool.and_self, if_true, hv1, hv2]
    have hrec := ih (i + 2) f (by omega) (by omega)
    simp only [List.length_cons, hrec]
    omega

/-- C9: loading a snapshot whose well-formed history has odd length
`2k + 1` sets the in-memory history to the stored sequence exactly —
including the trailing unpaired turn — while the replay renders exactly
`2k` messages (the incomplete final pair is skipped only in rendering);
and the full in-memory history, the unpaired turn included, is spread into
every subsequently assembled request between the synthetic turns and the
new message. -/
theorem odd_history_load_semantics (k : Nat) (ts : List Turn) (p : String)
    (hlen : ts.length = 2 * k + 1) (hw : ∀ t ∈ ts, t.parts ≠ []) :
    (loadSavedData (.value (.obj
        [("conversationHistory", .arr (ts.map turnToJs)), ("currentPersonality", .str p)]))
      initialPageState).conversationHistory = .arr (ts.map turnToJs) ∧
    (loadSavedData (.value (.obj
        [("conversationHistory", .arr (ts.map turnToJs)), ("currentPersonality", .str p)]))
      initialPageState).rendered.length = 2 * k ∧
    (∀ m : String,
      callGeminiAPIContents ts p m =
        ⟨"user", [⟨systemPrompt p⟩]⟩ ::
          ⟨"model", [⟨.str "Понял! Буду следовать этому стилю."⟩]⟩ ::
            (ts ++ [⟨"user", [⟨.str m⟩]⟩])) := by
  have hw2 : ∀ x ∈ ts.map turnToJs, ∃ t : Turn, x = turnToJs t ∧ t.parts ≠ [] := by
    intro x hx
    obtain ⟨t, ht, rfl⟩ := List.mem_map.mp hx
    exact ⟨t, rfl, hw t ht⟩
  have hjs : (ts.map turnToJs).length = 2 * k + 1 := by
    simpa using hlen
  have hcount :=
    replayMessages_count (ts.map turnToJs) hw2 k 0 ((ts.map turnToJs).length + 1)
      (by omega) (by omega)
  refine ⟨?_, ?_, fun m => rfl⟩
  · simp [loadSavedData, jsGet, lookupField, rawGet, changePersonality, truthy]
    split <;> rfl
  · have hguard : jsNumLt 0 (.num (ts.length : Int)) = true := by
      simp only [jsNumLt, decide_eq_true_eq]
      omega
    have hfuel : replayFuel (.num (ts.length : Int)) = ts.length + 1 := by
      simp [replayFuel]
    simp only [loadSavedData, jsGet, lookupField, rawGet, changePersonality, truthy]
    norm_num [hguard, hfuel, initialPageState]
    rw [show (Js.num (ts.length : Int)) = (Js.num ((ts.map turnToJs).length : Int)) by
      simp]
    rw [show ts.length + 1 = (ts.map turnToJs).length + 1 by simp]
    rw [hcount]

/-- Witness for `odd_history_load_semantics`: three well-formed turns
(`k = 1`), of which exactly two are rendered. -/
theorem odd_history_load_semantics_witness :
    (([⟨"user", [⟨.str "a"⟩]⟩, ⟨"model", [⟨.str "b"⟩]⟩, ⟨"user", [⟨.str "c"⟩]⟩] :
        List Turn).length = 2 * 1 + 1 ∧
      (∀ t ∈ ([⟨"user", [⟨.str "a"⟩]⟩, ⟨"model", [⟨.str "b"⟩]⟩, ⟨"user", [⟨.str "c"⟩]⟩] :
          List Turn), t.parts ≠ [])) ∧
    ((loadSavedData (.value (.obj
        [("conversationHistory",
            .arr (([⟨"user", [⟨.str "a"⟩]⟩, ⟨"model", [⟨.str "b"⟩]⟩,
              ⟨"user", [⟨.str "c"⟩]⟩] : List Turn).map turnToJs)),
          ("currentPersonality", .str "poet")]))
      initialPageState).conversationHistory
        = .arr (([⟨"user", [⟨.str "a"⟩]⟩, ⟨"model", [⟨.str "b"⟩]⟩,
            ⟨"user", [⟨.str "c"⟩]⟩] : List Turn).map turnToJs) ∧
    (loadSavedData (.value (.obj
        [("conversationHistory",
            .arr (([⟨"user", [⟨.str "a"⟩]⟩, ⟨"model", [⟨.str "b"⟩]⟩,
              ⟨"user", [⟨.str "c"⟩]⟩] : List Turn).map turnToJs)),
          ("currentPersonality", .str "poet")]))
      initialPageState).rendered.length = 2 * 1 ∧
    (∀ m : String,
      callGeminiAPIContents
          [⟨"user", [⟨.str "a"⟩]⟩, ⟨"model", [⟨.str "b"⟩]⟩, ⟨"user", [⟨.str "c"⟩]⟩]
          "poet" m =
        ⟨"user", [⟨systemPrompt "poet"⟩]⟩ ::
          ⟨"model", [⟨.str "Понял! Буду следовать этому стилю."⟩]⟩ ::
            ([⟨"user", [⟨.str "a"⟩]⟩, ⟨"model", [⟨.str "b"⟩]⟩, ⟨"user", [⟨.str "c"⟩]⟩] ++
              [⟨"user", [⟨.str m⟩]⟩]))) :=
  ⟨⟨rfl, by
      intro t ht
      simp only [List.mem_cons, List.not_mem_nil, or_false] at ht
      rcases ht with rfl | rfl | rfl <;> simp⟩,
    odd_history_load_semantics 1
      [⟨"user", [⟨.str "a"⟩]⟩, ⟨"model", [⟨.str "b"⟩]⟩, ⟨"user", [⟨.str "c"⟩]⟩] "poet" rfl
      (by
        intro t ht
        simp only [List.mem_cons, List.not_mem_nil, or_false] at ht
        rcases ht with rfl | rfl | rfl <;> simp)⟩

end GeminiWeb
